import Mathlib

/-!
Verification of `src/camel/model_backend.py` (ChatDev model-backend adapter):
a shallow embedding of the message converter, token budgeter, model registry,
response normalizer, stub backend and backend dispatcher, with theorems about
the spec's claims.
-/

/-- A canonical chat message: the `{"role": ..., "content": ...}` dicts that
`model_backend.py` passes around. -/
structure Message where
  role : String
  content : String
deriving DecidableEq

/-- `listHasInfix s pat` is true when `pat` occurs as a contiguous substring
of `s` (character lists). -/
def listHasInfix : List Char → List Char → Bool
  | [], pat => pat.isEmpty
  | c :: rest, pat => pat.isPrefixOf (c :: rest) || listHasInfix rest pat

/-- The Python membership test `"ass" in role` used by
`ErnieModel.messages_reformat_as_ernie`: substring containment. -/
def roleHasAss (role : String) : Bool :=
  listHasInfix role.toList "ass".toList

/-- One iteration of the loop in `ErnieModel.messages_reformat_as_ernie`
(src/camel/model_backend.py, lines 197-218).  The state is the pair of the
`last_message_be_user_flag` and the `ernie_messages` accumulator; appending to
the Python list becomes appending to the second component. -/
def ernieReformatStep (st : Bool × List Message) (message : Message) :
    Bool × List Message :=
  if roleHasAss message.role then
    (false, st.2 ++ [⟨"assistant", message.content⟩])
  else
    let acc := if st.1 then st.2 ++ [⟨"assistant", "Got it."⟩] else st.2
    (true, acc ++ [⟨"user", message.content⟩])

/-- `ErnieModel.messages_reformat_as_ernie` (lines 193-219): fold the loop body
over the input messages starting from `last_message_be_user_flag = False` and
an empty `ernie_messages` list. -/
def messages_reformat_as_ernie (messages : List Message) : List Message :=
  (messages.foldl ernieReformatStep (false, [])).2

/-- Recursive companion of `messages_reformat_as_ernie` used in proofs: the
same computation with the accumulator made explicit by structural recursion. -/
def ernieGo (flag : Bool) : List Message → List Message
  | [] => []
  | m :: rest =>
    if roleHasAss m.role then
      ⟨"assistant", m.content⟩ :: ernieGo false rest
    else if flag then
      ⟨"assistant", "Got it."⟩ :: ⟨"user", m.content⟩ :: ernieGo true rest
    else
      ⟨"user", m.content⟩ :: ernieGo true rest

/-- No two adjacent entries of the list both have role `"user"`. -/
def noConsecUser : List Message → Bool
  | [] => true
  | [_] => true
  | a :: b :: rest =>
    !(a.role == "user" && b.role == "user") && noConsecUser (b :: rest)

/-- Whether the list starts with a message of the given role. -/
def headRoleIs (r : String) : List Message → Bool
  | [] => false
  | m :: _ => m.role == r

/-- How a single input message is emitted by the converter, fillers aside: an
assistant turn when its role contains `"ass"`, otherwise a user turn, the
content unchanged in both cases. -/
def classifyErnie (m : Message) : Message :=
  if roleHasAss m.role then ⟨"assistant", m.content⟩ else ⟨"user", m.content⟩

/-- `FillerInserted l l'` holds when `l'` is `l` with copies of the synthetic
filler turn `{assistant, "Got it."}` inserted at some positions. -/
inductive FillerInserted : List Message → List Message → Prop
  | nil : FillerInserted [] []
  | keep (m : Message) {l l' : List Message} :
      FillerInserted l l' → FillerInserted (m :: l) (m :: l')
  | fill {l l' : List Message} :
      FillerInserted l l' → FillerInserted l (⟨"assistant", "Got it."⟩ :: l')

/-- A value stored in `model_config_dict`: the integer `max_tokens` this layer
computes, or any other option value, opaque to this layer. -/
inductive ConfigVal where
  | num (i : Int)
  | raw (s : String)
deriving DecidableEq

/-- Python dict assignment `d[k] = v` on an association-list view of the dict:
replace the first binding of `k` in place, or append a new binding. -/
def dictSet : List (String × ConfigVal) → String → ConfigVal →
    List (String × ConfigVal)
  | [], k, v => [(k, v)]
  | (k', v') :: rest, k, v =>
    if k' = k then (k, v) :: rest else (k', v') :: dictSet rest k v

/-- The token-window table of `OpenAIModel.run`: lines 98-108 of
src/camel/model_backend.py in the new-API branch, lines 130-138 in the old-API
branch (the new branch adds the two `gpt-4-1106` entries). -/
def num_max_token_map (openai_new_api : Bool) : List (String × Nat) :=
  if openai_new_api then
    [("gpt-3.5-turbo", 4096),
     ("gpt-3.5-turbo-16k", 16384),
     ("gpt-3.5-turbo-0613", 4096),
     ("gpt-3.5-turbo-16k-0613", 16384),
     ("gpt-4", 8192),
     ("gpt-4-0613", 8192),
     ("gpt-4-32k", 32768),
     ("gpt-4-1106-preview", 4096),
     ("gpt-4-1106-vision-preview", 4096)]
  else
    [("gpt-3.5-turbo", 4096),
     ("gpt-3.5-turbo-16k", 16384),
     ("gpt-3.5-turbo-0613", 4096),
     ("gpt-3.5-turbo-16k-0613", 16384),
     ("gpt-4", 8192),
     ("gpt-4-0613", 8192),
     ("gpt-4-32k", 32768)]

/-- The prompt-token estimate of `OpenAIModel.run` (lines 80-84): join all
message contents with newline separators, count tokens with the tokenizer
`enc` (standing for tiktoken's `len(encoding.encode(string))`), and add the
`gap_between_send_receive` of 15 tokens per message. -/
def estimate_prompt_tokens (enc : String → Nat) (messages : List Message) :
    Nat :=
  enc (String.intercalate "\n" (messages.map Message.content))
    + 15 * messages.length

/-- The mutable state an `OpenAIModel` holds across `run`: the model
identifier string (`self.model_type.value`) and `self.model_config_dict`. -/
structure OpenAIModelState where
  model_type : String
  model_config_dict : List (String × ConfigVal)
deriving DecidableEq

/-- The part of `OpenAIModel.run` that runs before the vendor call (lines
79-111 in the new-API branch, 127-141 in the old-API branch): estimate the
prompt tokens, look up the model's context window in `num_max_token_map`,
compute `num_max_completion_tokens = num_max_token - num_prompt_tokens` (an
integer that may be negative — the source never clamps it) and store it under
`'max_tokens'` in `self.model_config_dict`.  Returns the updated state and the
computed budget; `none` models the `KeyError` a dict access raises for an
identifier absent from the table. -/
def openAIRunPrepare (openai_new_api : Bool) (enc : String → Nat)
    (st : OpenAIModelState) (messages : List Message) :
    Option (OpenAIModelState × Int) :=
  let num_prompt_tokens := estimate_prompt_tokens enc messages
  match (num_max_token_map openai_new_api).lookup st.model_type with
  | none => none
  | some num_max_token =>
    let num_max_completion_tokens : Int :=
      (num_max_token : Int) - (num_prompt_tokens : Int)
    some ({ st with
            model_config_dict :=
              dictSet st.model_config_dict "max_tokens"
                (ConfigVal.num num_max_completion_tokens) },
          num_max_completion_tokens)

/-- Modelled from the spec: the `ModelType` enumeration lives in
`camel/typing.py`, which is not among the staged sources.  Its constructors
are the members `ModelFactory.create` names, and `outside` stands for any
identifier outside the closed supported set (the spec: "an identifier outside
the closed set ... fails with UnsupportedModelError"). -/
inductive ModelType where
  | GPT_3_5_TURBO
  | GPT_3_5_TURBO_NEW
  | GPT_4
  | GPT_4_32k
  | GPT_4_TURBO
  | GPT_4_TURBO_V
  | Ernie
  | STUB
  | outside (identifier : String)
deriving DecidableEq

/-- The three backend classes `ModelFactory.create` can instantiate. -/
inductive ModelClass where
  | openAIModel
  | ernieModel
  | stubModel
deriving DecidableEq

/-- The instantiated backend `model_class(model_type, model_config_dict)`
returned by `ModelFactory.create`. -/
structure CreatedBackend where
  model_class : ModelClass
  model_type : ModelType
  model_config_dict : List (String × ConfigVal)
deriving DecidableEq

/-- `ModelFactory.create` (lines 276-302): pick the backend class from the
membership test on the supported set (Python `None` is `none`), raise
`ValueError("Unknown model")` otherwise, then replace `None` by the default
model type `GPT_3_5_TURBO` and instantiate the class. -/
def ModelFactory.create (model_type : Option ModelType)
    (model_config_dict : List (String × ConfigVal)) :
    Except String CreatedBackend := do
  let default_model_type := ModelType.GPT_3_5_TURBO
  let model_class ←
    if model_type ∈ ([some ModelType.GPT_3_5_TURBO,
        some ModelType.GPT_3_5_TURBO_NEW,
        some ModelType.GPT_4,
        some ModelType.GPT_4_32k,
        some ModelType.GPT_4_TURBO,
        some ModelType.GPT_4_TURBO_V,
        none] : List (Option ModelType)) then
      pure ModelClass.openAIModel
    else if model_type = some ModelType.Ernie then
      pure ModelClass.ernieModel
    else if model_type = some ModelType.STUB then
      pure ModelClass.stubModel
    else
      Except.error "Unknown model"
  let model_type :=
    match model_type with
    | none => default_model_type
    | some t => t
  pure ⟨model_class, model_type, model_config_dict⟩

/-- An erniebot chat-completion response, seen through the only accessor
`result_format_as_openai` uses: `response.get_result()`, the reply text. -/
structure ErnieResponse where
  get_result : String
deriving DecidableEq

/-- The usage block of an OpenAI-format response. -/
structure Usage where
  prompt_tokens : Int
  completion_tokens : Int
  total_tokens : Int
deriving DecidableEq

/-- One choice of an OpenAI-format response. -/
structure Choice where
  message : Message
  finish_reason : String
  index : Nat
deriving DecidableEq

/-- An OpenAI-format chat-completion response dict. -/
structure OpenAIStyleResponse where
  id : String
  object : String
  created : Nat
  model : String
  usage : Usage
  choices : List Choice
deriving DecidableEq

/-- `ErnieModel.result_format_as_openai` (lines 168-191): build the
OpenAI-format dict with fixed id, timestamp and usage counts (all `1` — the
source's placeholder, since erniebot usage is never consulted) and one choice
holding the extracted reply text with `finish_reason = "stop"`. -/
def result_format_as_openai (response : ErnieResponse) : OpenAIStyleResponse :=
  { id := "xxxxxxxxxxxxxxxxxxxxx"
    object := "chat.completion"
    created := 1
    model := "Ernie"
    usage := ⟨1, 1, 1⟩
    choices := [⟨⟨"assistant", response.get_result⟩, "stop", 0⟩] }

/-- One choice of the stub response (the source gives it no `index` key). -/
structure StubChoice where
  finish_reason : String
  message : Message
deriving DecidableEq

/-- The dict `StubModel.run` returns: an id, an empty usage dict and one
choice. -/
structure StubResponse where
  id : String
  usage : List (String × Int)
  choices : List StubChoice
deriving DecidableEq

/-- `StubModel.run` (lines 256-266): ignore all positional and keyword
arguments and return the fixed dict with `ARBITRARY_STRING = "Lorem Ipsum"`. -/
def StubModel.run (_args : List String) (_kwargs : List (String × String)) :
    StubResponse :=
  let ARBITRARY_STRING := "Lorem Ipsum"
  { id := "stub_model_id"
    usage := []
    choices := [⟨"stop", ⟨"assistant", ARBITRARY_STRING⟩⟩] }

/- ## Helper lemmas for the converter -/

theorem foldl_ernieReformatStep_eq_go (ms : List Message) :
    ∀ (flag : Bool) (acc : List Message),
      (ms.foldl ernieReformatStep (flag, acc)).2 = acc ++ ernieGo flag ms := by
  induction ms with
  | nil => intro flag acc; simp [ernieGo]
  | cons m rest ih =>
    intro flag acc
    by_cases h : roleHasAss m.role = true
    · simp [ernieReformatStep, ernieGo, h, ih]
    · cases flag with
      | true => simp [ernieReformatStep, ernieGo, h, ih]
      | false => simp [ernieReformatStep, ernieGo, h, ih]

theorem messages_reformat_eq_go (ms : List Message) :
    messages_reformat_as_ernie ms = ernieGo false ms := by
  simpa using foldl_ernieReformatStep_eq_go ms false []

theorem noConsecUser_cons (x : Message) (l : List Message) :
    noConsecUser (x :: l) =
      (!(x.role == "user" && headRoleIs "user" l) && noConsecUser l) := by
  cases l with
  | nil => simp [noConsecUser, headRoleIs]
  | cons b rest => simp [noConsecUser, headRoleIs]

theorem headRoleIs_user_ernieGo_true (ms : List Message) :
    headRoleIs "user" (ernieGo true ms) = false := by
  cases ms with
  | nil => rfl
  | cons m rest =>
    by_cases h : roleHasAss m.role = true
    · simp [ernieGo, h, headRoleIs]
    · simp [ernieGo, h, headRoleIs]

theorem noConsecUser_ernieGo (ms : List Message) :
    ∀ flag : Bool, noConsecUser (ernieGo flag ms) = true := by
  induction ms with
  | nil => intro flag; rfl
  | cons m rest ih =>
    intro flag
    by_cases h : roleHasAss m.role = true
    · simp [ernieGo, h, noConsecUser_cons, ih]
    · cases flag with
      | true =>
        simp [ernieGo, h, noConsecUser_cons, ih,
          headRoleIs_user_ernieGo_true]
      | false =>
        simp [ernieGo, h, noConsecUser_cons, ih,
          headRoleIs_user_ernieGo_true]

theorem fillerInserted_ernieGo (ms : List Message) :
    ∀ flag : Bool, FillerInserted (ms.map classifyErnie) (ernieGo flag ms) := by
  induction ms with
  | nil => intro flag; exact FillerInserted.nil
  | cons m rest ih =>
    intro flag
    by_cases h : roleHasAss m.role = true
    · simpa [ernieGo, h, classifyErnie] using
        FillerInserted.keep (⟨"assistant", m.content⟩ : Message) (ih false)
    · cases flag with
      | true =>
        simpa [ernieGo, h, classifyErnie] using
          FillerInserted.fill
            (FillerInserted.keep (⟨"user", m.content⟩ : Message) (ih true))
      | false =>
        simpa [ernieGo, h, classifyErnie] using
          FillerInserted.keep (⟨"user", m.content⟩ : Message) (ih true)

/- ## Helper lemmas about dict operations -/

theorem dictSet_lookup_self (d : List (String × ConfigVal)) (k : String)
    (v : ConfigVal) : (dictSet d k v).lookup k = some v := by
  induction d with
  | nil => simp [dictSet, List.lookup_cons]
  | cons p rest ih =>
    obtain ⟨k', v'⟩ := p
    by_cases h : k' = k
    · subst h; simp [dictSet, List.lookup_cons]
    · simp [dictSet, h, List.lookup_cons, beq_false_of_ne (Ne.symm h), ih]

theorem dictSet_lookup_other (d : List (String × ConfigVal)) (k : String)
    (v : ConfigVal) (k' : String) (hk : k' ≠ k) :
    (dictSet d k v).lookup k' = d.lookup k' := by
  induction d with
  | nil => simp [dictSet, List.lookup_cons, beq_false_of_ne hk]
  | cons p rest ih =>
    obtain ⟨k₀, v₀⟩ := p
    by_cases h : k₀ = k
    · subst h
      simp [dictSet, List.lookup_cons, beq_false_of_ne hk]
    · simp only [dictSet, if_neg h, List.lookup_cons, ih]

theorem lookup_pos_of_all_pos (l : List (String × Nat))
    (hl : ∀ p ∈ l, 0 < p.2) :
    ∀ id v, l.lookup id = some v → 0 < v := by
  induction l with
  | nil => intro id v h; simp [List.lookup] at h
  | cons p rest ih =>
    intro id v h
    obtain ⟨k, w⟩ := p
    rw [List.lookup_cons] at h
    by_cases hk : id = k
    · subst hk
      simp only [beq_self_eq_true, if_true, Option.some.injEq] at h
      exact h ▸ hl (id, w) (by simp)
    · simp only [beq_false_of_ne hk, if_neg, Bool.false_eq_true,
        if_false] at h
      exact ih (fun q hq => hl q (List.mem_cons_of_mem _ hq)) id v h

theorem lookup_eq_none_iff_not_mem (l : List (String × Nat)) (id : String) :
    l.lookup id = none ↔ id ∉ l.map Prod.fst := by
  induction l with
  | nil => simp [List.lookup]
  | cons p rest ih =>
    obtain ⟨k, w⟩ := p
    rw [List.lookup_cons]
    by_cases hk : id = k
    · subst hk; simp
    · simp [beq_false_of_ne hk, hk, ih]

/- ## Claim theorems about the converter -/

/-- Claim C1, counterexample: the converter's output can start with an
assistant-role turn — on the input `[{assistant, "x"}]` the output is
`[{assistant, "x"}]` — so the claim as stated (no consecutive user turns AND
never a leading assistant turn, for every input) is false. -/
theorem c1_counterexample :
    ¬ (∀ ms : List Message,
        noConsecUser (messages_reformat_as_ernie ms) = true ∧
        headRoleIs "assistant" (messages_reformat_as_ernie ms) = false) :=
  fun h => absurd (h [⟨"assistant", "x"⟩]).2 (by decide)

/-- Claim C1, amended: for every input, the output of
`messages_reformat_as_ernie` never contains two consecutive user-role turns,
and it starts with an assistant-role turn only when the first input message's
role contains `"ass"` (so whenever the input starts with a user or system
message, the output does not start with an assistant turn). -/
theorem c1_ernie_alternation (ms : List Message) :
    noConsecUser (messages_reformat_as_ernie ms) = true ∧
    (headRoleIs "assistant" (messages_reformat_as_ernie ms) = true →
      ∃ m rest, ms = m :: rest ∧ roleHasAss m.role = true) := by
  constructor
  · rw [messages_reformat_eq_go]
    exact noConsecUser_ernieGo ms false
  · intro hhead
    cases ms with
    | nil => simp [messages_reformat_as_ernie, headRoleIs] at hhead
    | cons m rest =>
      by_cases h : roleHasAss m.role = true
      · exact ⟨m, rest, rfl, h⟩
      · rw [messages_reformat_eq_go] at hhead
        simp [ernieGo, h, headRoleIs] at hhead

/-- Claim C6: on the input `[{user, "Hi"}, {user, "How are you?"}]` the
converter yields exactly `[{user, "Hi"}, {assistant, "Got it."},
{user, "How are you?"}]`: a synthetic assistant filler with fixed content
`"Got it."` is inserted between the two consecutive user messages. -/
theorem c6_roundtrip :
    messages_reformat_as_ernie [⟨"user", "Hi"⟩, ⟨"user", "How are you?"⟩] =
      [⟨"user", "Hi"⟩, ⟨"assistant", "Got it."⟩, ⟨"user", "How are you?"⟩] := by
  decide

/-- Claim C9: the converter emits, in order, exactly one turn per input
message — an assistant turn with unchanged content when the message's role
contains `"ass"` as a substring (also for non-assistant roles such as
`"passenger"`), and a user turn with unchanged content otherwise (also for
system-role messages) — with only copies of the synthetic filler
`{assistant, "Got it."}` inserted in between. -/
theorem c9_role_classification :
    (∀ ms : List Message,
      FillerInserted (ms.map classifyErnie) (messages_reformat_as_ernie ms)) ∧
    messages_reformat_as_ernie [⟨"passenger", "x"⟩] = [⟨"assistant", "x"⟩] ∧
    messages_reformat_as_ernie [⟨"system", "y"⟩] = [⟨"user", "y"⟩] := by
  refine ⟨fun ms => ?_, by decide, by decide⟩
  rw [messages_reformat_eq_go]
  exact fillerInserted_ernieGo ms false

/- ## Claim theorems about the OpenAI run path, registry, factory,
normalizer and stub -/

/-- Claim C2: whenever the model identifier is in the token-window table, the
`max_tokens` value `OpenAIModel.run` stores for the vendor call equals the
model's context window minus the estimated prompt tokens, with no clamping —
in particular, when the estimate meets or exceeds the window, the computed
completion budget is zero or negative. -/
theorem c2_completion_budget (openai_new_api : Bool) (enc : String → Nat)
    (st : OpenAIModelState) (messages : List Message) (num_max_token : Nat)
    (h : (num_max_token_map openai_new_api).lookup st.model_type =
      some num_max_token) :
    ∃ st' : OpenAIModelState,
      openAIRunPrepare openai_new_api enc st messages =
        some (st',
          (num_max_token : Int) - (estimate_prompt_tokens enc messages : Int)) ∧
      st'.model_config_dict.lookup "max_tokens" =
        some (ConfigVal.num
          ((num_max_token : Int) - (estimate_prompt_tokens enc messages : Int))) ∧
      (num_max_token ≤ estimate_prompt_tokens enc messages →
        (num_max_token : Int) - (estimate_prompt_tokens enc messages : Int) ≤ 0) := by
  have hrun : openAIRunPrepare openai_new_api enc st messages =
      some ({ st with
              model_config_dict :=
                dictSet st.model_config_dict "max_tokens"
                  (ConfigVal.num ((num_max_token : Int) -
                    (estimate_prompt_tokens enc messages : Int))) },
            (num_max_token : Int) - (estimate_prompt_tokens enc messages : Int)) := by
    unfold openAIRunPrepare
    rw [h]
  refine ⟨_, hrun, ?_, ?_⟩
  · exact dictSet_lookup_self _ _ _
  · intro hle
    omega

/-- Witness for C2 at a concrete input: model `"gpt-4"` in the new-API table
(window 8192), one user message `"Hi"`, the tokenizer `String.length`. -/
theorem c2_completion_budget_witness :
    ∃ st' : OpenAIModelState,
      openAIRunPrepare true String.length ⟨"gpt-4", []⟩ [⟨"user", "Hi"⟩] =
        some (st',
          (8192 : Int) -
            (estimate_prompt_tokens String.length [⟨"user", "Hi"⟩] : Int)) ∧
      st'.model_config_dict.lookup "max_tokens" =
        some (ConfigVal.num ((8192 : Int) -
          (estimate_prompt_tokens String.length [⟨"user", "Hi"⟩] : Int))) ∧
      (8192 ≤ estimate_prompt_tokens String.length [⟨"user", "Hi"⟩] →
        (8192 : Int) -
          (estimate_prompt_tokens String.length [⟨"user", "Hi"⟩] : Int) ≤ 0) :=
  c2_completion_budget true String.length ⟨"gpt-4", []⟩ [⟨"user", "Hi"⟩] 8192
    (by decide)

/-- Claim C3: every identifier present in either token-window table of
`OpenAIModel.run` maps to a positive context size, and lookup fails (the dict
access raises KeyError, the spec's UnknownModelError) exactly for identifiers
absent from the table. -/
theorem c3_registry_lookup (openai_new_api : Bool) (identifier : String) :
    (∀ v, (num_max_token_map openai_new_api).lookup identifier = some v →
      0 < v) ∧
    ((num_max_token_map openai_new_api).lookup identifier = none ↔
      identifier ∉ (num_max_token_map openai_new_api).map Prod.fst) := by
  constructor
  · intro v h
    refine lookup_pos_of_all_pos _ ?_ identifier v h
    cases openai_new_api <;> decide
  · exact lookup_eq_none_iff_not_mem _ identifier

/-- Claim C4: `ModelFactory.create` maps every identifier of the closed
supported set to its backend class, maps Python `None` to the default model's
backend (`OpenAIModel` with `GPT_3_5_TURBO`), and raises
`ValueError("Unknown model")` for every identifier outside the closed set. -/
theorem c4_factory_dispatch (cfg : List (String × ConfigVal)) :
    (∀ mt ∈ [ModelType.GPT_3_5_TURBO, ModelType.GPT_3_5_TURBO_NEW,
        ModelType.GPT_4, ModelType.GPT_4_32k, ModelType.GPT_4_TURBO,
        ModelType.GPT_4_TURBO_V],
      ModelFactory.create (some mt) cfg =
        Except.ok ⟨ModelClass.openAIModel, mt, cfg⟩) ∧
    ModelFactory.create none cfg =
      Except.ok ⟨ModelClass.openAIModel, ModelType.GPT_3_5_TURBO, cfg⟩ ∧
    ModelFactory.create (some ModelType.Ernie) cfg =
      Except.ok ⟨ModelClass.ernieModel, ModelType.Ernie, cfg⟩ ∧
    ModelFactory.create (some ModelType.STUB) cfg =
      Except.ok ⟨ModelClass.stubModel, ModelType.STUB, cfg⟩ ∧
    (∀ s, ModelFactory.create (some (ModelType.outside s)) cfg =
      Except.error "Unknown model") := by
  refine ⟨?_, rfl, rfl, rfl, fun s => rfl⟩
  intro mt hmt
  fin_cases hmt <;> rfl

/-- Claim C7: for every erniebot reply, `result_format_as_openai` builds a
response with exactly one choice carrying the extracted reply text, with
`finish_reason = "stop"`, and with the fixed placeholder value 1 in all three
usage counts (erniebot-reported usage is never consulted). -/
theorem c7_ernie_normalizer (response : ErnieResponse) :
    (result_format_as_openai response).choices.length = 1 ∧
    (result_format_as_openai response).choices.map
      (fun c => c.message.content) = [response.get_result] ∧
    (result_format_as_openai response).choices.map Choice.finish_reason =
      ["stop"] ∧
    (result_format_as_openai response).usage = ⟨1, 1, 1⟩ :=
  ⟨rfl, rfl, rfl, rfl⟩

/-- Claim C8: `StubModel.run`, for every argument list, returns a response
with exactly one choice, `finish_reason = "stop"` and literal content
`"Lorem Ipsum"`. -/
theorem c8_stub_response (args : List String)
    (kwargs : List (String × String)) :
    (StubModel.run args kwargs).choices.length = 1 ∧
    (StubModel.run args kwargs).choices.map StubChoice.finish_reason =
      ["stop"] ∧
    (StubModel.run args kwargs).choices.map (fun c => c.message.content) =
      ["Lorem Ipsum"] :=
  ⟨rfl, rfl, rfl⟩

/-- Claim C10: every successful `OpenAIModel.run` overwrites the
`'max_tokens'` key of the stored `model_config_dict` with the freshly computed
completion budget before the vendor call — discarding whatever value was there
— and leaves the model identifier and every other configuration key
unchanged. -/
theorem c10_config_frame (openai_new_api : Bool) (enc : String → Nat)
    (st st' : OpenAIModelState) (messages : List Message) (budget : Int)
    (h : openAIRunPrepare openai_new_api enc st messages = some (st', budget)) :
    st'.model_type = st.model_type ∧
    st'.model_config_dict.lookup "max_tokens" = some (ConfigVal.num budget) ∧
    ∀ k, k ≠ "max_tokens" →
      st'.model_config_dict.lookup k = st.model_config_dict.lookup k := by
  cases hl : (num_max_token_map openai_new_api).lookup st.model_type with
  | none =>
    have : openAIRunPrepare openai_new_api enc st messages = none := by
      unfold openAIRunPrepare
      rw [hl]
    rw [this] at h
    exact Option.noConfusion h
  | some mx =>
    have hrun : openAIRunPrepare openai_new_api enc st messages =
        some ({ st with
                model_config_dict :=
                  dictSet st.model_config_dict "max_tokens"
                    (ConfigVal.num ((mx : Int) -
                      (estimate_prompt_tokens enc messages : Int))) },
              (mx : Int) - (estimate_prompt_tokens enc messages : Int)) := by
      unfold openAIRunPrepare
      rw [hl]
    rw [hrun] at h
    simp only [Option.some.injEq, Prod.mk.injEq] at h
    obtain ⟨h1, h2⟩ := h
    subst h1
    subst h2
    refine ⟨rfl, ?_, ?_⟩
    · exact dictSet_lookup_self _ _ _
    · intro k hk
      exact dictSet_lookup_other _ _ _ _ hk

/-- Witness for C10 at a concrete input: old-API model `"gpt-3.5-turbo"`
(window 4096), a stored configuration holding a `temperature` and a stale
`max_tokens` of 999, one user message `"Hi"` and the tokenizer
`String.length`; the budget is `4096 - (2 + 15) = 4079`. -/
theorem c10_config_frame_witness :
    (OpenAIModelState.mk "gpt-3.5-turbo"
        [("temperature", ConfigVal.raw "0.2"),
         ("max_tokens", ConfigVal.num 4079)]).model_type =
      (OpenAIModelState.mk "gpt-3.5-turbo"
        [("temperature", ConfigVal.raw "0.2"),
         ("max_tokens", ConfigVal.num 999)]).model_type ∧
    (OpenAIModelState.mk "gpt-3.5-turbo"
        [("temperature", ConfigVal.raw "0.2"),
         ("max_tokens", ConfigVal.num 4079)]).model_config_dict.lookup
      "max_tokens" = some (ConfigVal.num 4079) ∧
    ∀ k, k ≠ "max_tokens" →
      (OpenAIModelState.mk "gpt-3.5-turbo"
          [("temperature", ConfigVal.raw "0.2"),
           ("max_tokens", ConfigVal.num 4079)]).model_config_dict.lookup k =
        (OpenAIModelState.mk "gpt-3.5-turbo"
          [("temperature", ConfigVal.raw "0.2"),
           ("max_tokens", ConfigVal.num 999)]).model_config_dict.lookup k :=
  c10_config_frame false String.length
    (OpenAIModelState.mk "gpt-3.5-turbo"
      [("temperature", ConfigVal.raw "0.2"),
       ("max_tokens", ConfigVal.num 999)])
    (OpenAIModelState.mk "gpt-3.5-turbo"
      [("temperature", ConfigVal.raw "0.2"),
       ("max_tokens", ConfigVal.num 4079)])
    [⟨"user", "Hi"⟩] 4079 (by decide)
